import Mathlib

/-!
Verification of the gesture-recognition pipeline of
`youtube_shorts_gesture_313.py`.

The pipeline is shallowly embedded: image-processing library calls
(color conversion, morphology, contour extraction) are treated as
external collaborators, so a mask or a binarized crop is represented by
the list of contours the library reports for it, each contour carrying
the scalar measures the code actually reads (area, perimeter, bounding
rectangle).  The dispatch logic of the main loop is embedded as an
explicit state-transition function on the session state
(`last_action_time`, `gesture_cooldown`).
-/

/-- The `GestureType` enum of the source. -/
inductive GestureType where
  | NONE
  | SWIPE_UP
  | SWIPE_DOWN
  | PALM_OPEN
  | FIST
deriving DecidableEq

/-- Discrete actions delivered to the action sink: `NextItem` for
`pyautogui.press('down')`, `PreviousItem` for `press('up')`,
`TogglePlayback` for `press('space')`. -/
inductive ActionId where
  | NextItem
  | PreviousItem
  | TogglePlayback
deriving DecidableEq

/-- The IEEE-754 double value of `np.pi`, as an exact rational. -/
def npPi : ℚ := 884279719003555 / 281474976710656

/-- A contour reported by `cv2.findContours` on the skin mask, carrying
the measures `detect_hand` reads: `cv2.contourArea` and
`cv2.boundingRect` (as `x, y, w, h`). -/
structure Contour where
  area : ℚ
  x : ℕ
  y : ℕ
  w : ℕ
  h : ℕ
deriving DecidableEq

/-- A contour reported by `cv2.findContours` on the binarized hand crop,
carrying the measures `_is_palm_open` reads: `cv2.contourArea` and
`cv2.arcLength`. -/
structure RoiContour where
  area : ℚ
  perimeter : ℚ
deriving DecidableEq

/-- Python `max(xs, key=f)`: the first element attaining the maximal
key (a later element replaces the current one only on a strictly
greater key); `none` on the empty list (where Python raises, but both
call sites guard against an empty list first). -/
def firstMax {α : Type} (f : α → ℚ) : List α → Option α
  | [] => none
  | a :: rest => some (rest.foldl (fun acc b => if f acc < f b then b else acc) a)

/-- `self.min_contour_area = 5000`. -/
def min_contour_area : ℚ := 5000

/-- `HandDetector.detect_hand`, after the library has reported the
external contours of the skin mask: pick the largest contour; discard
it if its area is below `min_contour_area`; otherwise return the center
of its axis-aligned bounding box, `(x + w // 2, y + h // 2)`. -/
def detect_hand (contours : List Contour) : Option (ℕ × ℕ) :=
  match firstMax Contour.area contours with
  | none => none
  | some c =>
    if c.area < min_contour_area then none
    else some (c.x + c.w / 2, c.y + c.h / 2)

/-- Row extent of the numpy slice
`frame[max(0, cy-50) : min(frame.shape[0], cy+50)]`; a slice whose stop
does not exceed its start has extent 0. -/
def cropRows (height : ℕ) (cy : ℕ) : ℤ :=
  max 0 (min (height : ℤ) ((cy : ℤ) + 50) - max 0 ((cy : ℤ) - 50))

/-- Column extent of the numpy slice
`frame[..., max(0, cx-50) : min(frame.shape[1], cx+50)]`. -/
def cropCols (width : ℕ) (cx : ℕ) : ℤ :=
  max 0 (min (width : ℤ) ((cx : ℤ) + 50) - max 0 ((cx : ℤ) - 50))

/-- The cropped window `hand_roi` handed to `_is_palm_open`: its two
spatial extents and the contours the library reports on its binarized
grayscale version. -/
structure Roi where
  rows : ℤ
  cols : ℤ
  contours : List RoiContour

/-- `hand_roi.size == 0`: the numpy size of the 3-channel crop is
`rows * cols * 3`. -/
def Roi.sizeZero (r : Roi) : Bool :=
  decide (r.rows * r.cols * 3 = 0)

/-- An abstract frame: its dimensions plus, for each crop center, the
contours the library reports on the binarized 100-pixel window around
that center (only consulted when the window is nonempty). -/
structure Frame where
  height : ℕ
  width : ℕ
  cropContours : ℕ → ℕ → List RoiContour

/-- The crop window of `frame` centered at `(cx, cy)`. -/
def roiAt (f : Frame) (cx cy : ℕ) : Roi :=
  { rows := cropRows f.height cy
    cols := cropCols f.width cx
    contours := f.cropContours cx cy }

/-- `HandDetector._is_palm_open`: empty crop → `False`; no contour →
`False`; zero perimeter → `False`; otherwise Open exactly when
circularity `4·π·area / perimeter²` is below `0.5` and the area exceeds
`500`. -/
def is_palm_open (r : Roi) : Bool :=
  if r.sizeZero then false
  else
    match firstMax RoiContour.area r.contours with
    | none => false
    | some c =>
      if c.perimeter = 0 then false
      else decide (4 * npPi * c.area / (c.perimeter * c.perimeter) < 1/2 ∧ c.area > 500)

/-- `HandDetector.detect_gesture`: no hand → `(NONE, None)`; empty crop
→ `(NONE, pos)`; open palm → `(PALM_OPEN, pos)`; otherwise, with a
previous position, compare the vertical displacement
`prev_y - cy` against the 50-pixel swipe threshold. -/
def detect_gesture (f : Frame) (prev_hand_pos : Option (ℕ × ℕ))
    (current_hand_pos : Option (ℕ × ℕ)) : GestureType × Option (ℕ × ℕ) :=
  match current_hand_pos with
  | none => (GestureType.NONE, none)
  | some (cx, cy) =>
    if (roiAt f cx cy).sizeZero then (GestureType.NONE, some (cx, cy))
    else if is_palm_open (roiAt f cx cy) then (GestureType.PALM_OPEN, some (cx, cy))
    else
      match prev_hand_pos with
      | some (_, prev_y) =>
        if (prev_y : ℤ) - (cy : ℤ) > 50 then (GestureType.SWIPE_UP, some (cx, cy))
        else if (prev_y : ℤ) - (cy : ℤ) < -50 then (GestureType.SWIPE_DOWN, some (cx, cy))
        else (GestureType.NONE, some (cx, cy))
      | none => (GestureType.NONE, some (cx, cy))

/-- `self.action_cooldown = 1.5`. -/
def action_cooldown : ℚ := 3/2

/-- The dispatcher's session state: `self.last_action_time` and
`self.gesture_cooldown`. -/
structure DState where
  lastActionTime : ℚ
  gestureCooldown : ℤ
deriving DecidableEq

/-- The state after `__init__`: `last_action_time = 0`,
`gesture_cooldown = 0`. -/
def initState : DState :=
  { lastActionTime := 0, gestureCooldown := 0 }

/-- `YouTubeShortsGestureControl.perform_action`: returns the pressed
action (if any) together with the updated `last_action_time`.  An early
return occurs when `current_time - last_action_time < action_cooldown`;
otherwise the three recognized gestures each press a key and stamp the
time, and any other value falls through unchanged. -/
def perform_action (gesture_type : GestureType) (now last : ℚ) :
    Option ActionId × ℚ :=
  if now - last < action_cooldown then (none, last)
  else
    match gesture_type with
    | GestureType.SWIPE_UP => (some ActionId.NextItem, now)
    | GestureType.SWIPE_DOWN => (some ActionId.PreviousItem, now)
    | GestureType.PALM_OPEN => (some ActionId.TogglePlayback, now)
    | _ => (none, last)

/-- The dispatch block of one iteration of `run` (lines 224-228): when
the gesture is not `NONE` and `gesture_cooldown <= 0`, call
`perform_action` and set `gesture_cooldown = 20`; otherwise decrement
`gesture_cooldown`. -/
def runCycle (s : DState) (g : GestureType) (now : ℚ) :
    DState × Option ActionId :=
  if g ≠ GestureType.NONE ∧ s.gestureCooldown ≤ 0 then
    let pa := perform_action g now s.lastActionTime
    ({ lastActionTime := pa.2, gestureCooldown := 20 }, pa.1)
  else
    ({ lastActionTime := s.lastActionTime, gestureCooldown := s.gestureCooldown - 1 }, none)

/-- The per-gesture emission of `perform_action`, for stating its
outcome in one expression. -/
def gestureAction : GestureType → Option ActionId
  | GestureType.SWIPE_UP => some ActionId.NextItem
  | GestureType.SWIPE_DOWN => some ActionId.PreviousItem
  | GestureType.PALM_OPEN => some ActionId.TogglePlayback
  | _ => none

/-- Fold the dispatch block over a list of cycles, each supplying that
cycle's gesture outcome and wall-clock time. -/
def runLoop (s : DState) : List (GestureType × ℚ) → DState
  | [] => s
  | (g, now) :: rest => runLoop (runCycle s g now).1 rest

/-- The per-cycle log of a run: for each cycle, the suppression counter
on entry, the cycle's time, and the emitted action (if any). -/
def cycleLog (s : DState) : List (GestureType × ℚ) → List (ℤ × ℚ × Option ActionId)
  | [] => []
  | (g, now) :: rest =>
    (s.gestureCooldown, now, (runCycle s g now).2) :: cycleLog (runCycle s g now).1 rest

/-- The emitted actions of a run, each with the time of its cycle. -/
def emittedEvents (s : DState) (ins : List (GestureType × ℚ)) : List (ℚ × ActionId) :=
  (cycleLog s ins).filterMap (fun e => (e.2.2).map (fun a => (e.2.1, a)))

/-- Concrete frame whose crops all binarize to a single irregular
contour (area 600, perimeter 130): classified as an open palm. -/
def palmFrame : Frame :=
  { height := 480, width := 640, cropContours := fun _ _ => [{ area := 600, perimeter := 130 }] }

/-- Concrete frame whose crops all binarize to no contour at all:
classified as a closed hand. -/
def closedFrame : Frame :=
  { height := 480, width := 640, cropContours := fun _ _ => [] }

/-- Concrete crop with a single irregular contour. -/
def palmRoi : Roi :=
  { rows := 100, cols := 100, contours := [{ area := 600, perimeter := 130 }] }

/-- Concrete crop whose only contour has zero perimeter. -/
def zeroPerimRoi : Roi :=
  { rows := 100, cols := 100, contours := [{ area := 600, perimeter := 0 }] }

/-- Concrete mask contour comfortably above the minimum area. -/
def bigContour : Contour :=
  { area := 6000, x := 10, y := 20, w := 30, h := 40 }

/-- An emission of the dispatch block requires the time cooldown to have
elapsed, and stamps `last_action_time` with the cycle's time. -/
theorem runCycle_last_of_emit (s : DState) (g : GestureType) (now : ℚ) (a : ActionId)
    (h : (runCycle s g now).2 = some a) :
    s.lastActionTime + action_cooldown ≤ now ∧
      (runCycle s g now).1.lastActionTime = now := by
  by_cases hc : g ≠ GestureType.NONE ∧ s.gestureCooldown ≤ 0
  · by_cases ht : now - s.lastActionTime < action_cooldown
    · exfalso
      cases g <;> simp_all [runCycle, perform_action, if_pos ht]
    · have hle : action_cooldown ≤ now - s.lastActionTime := not_lt.mp ht
      refine ⟨by linarith, ?_⟩
      cases g <;> simp_all [runCycle, perform_action, if_neg ht]
  · exfalso
    simp [runCycle, hc] at h

/-- A cycle that emits nothing leaves `last_action_time` unchanged. -/
theorem runCycle_last_of_noemit (s : DState) (g : GestureType) (now : ℚ)
    (h : (runCycle s g now).2 = none) :
    (runCycle s g now).1.lastActionTime = s.lastActionTime := by
  by_cases hc : g ≠ GestureType.NONE ∧ s.gestureCooldown ≤ 0
  · by_cases ht : now - s.lastActionTime < action_cooldown
    · cases g <;> simp_all [runCycle, perform_action, if_pos ht]
    · cases g <;> simp_all [runCycle, perform_action, if_neg ht]
  · simp [runCycle, hc]

/-- A cycle entered with a positive suppression counter emits nothing. -/
theorem runCycle_noemit_of_pos (s : DState) (g : GestureType) (now : ℚ)
    (h : 0 < s.gestureCooldown) :
    (runCycle s g now).2 = none := by
  have hc : ¬ (g ≠ GestureType.NONE ∧ s.gestureCooldown ≤ 0) := by
    rintro ⟨-, hle⟩
    omega
  rw [runCycle, if_neg hc]

/-- Unfolding `emittedEvents` over one cycle. -/
theorem emittedEvents_cons (s : DState) (g : GestureType) (now : ℚ)
    (rest : List (GestureType × ℚ)) :
    emittedEvents s ((g, now) :: rest) =
      ((runCycle s g now).2).elim (emittedEvents (runCycle s g now).1 rest)
        (fun a => (now, a) :: emittedEvents (runCycle s g now).1 rest) := by
  cases hr : (runCycle s g now).2 <;> simp [emittedEvents, cycleLog, hr]

/-- Every emitted event of a run lies at least one cooldown after the
entry `last_action_time`, and consecutive emitted events are pairwise
separated by at least one cooldown. -/
theorem emittedEvents_sep (ins : List (GestureType × ℚ)) : ∀ s : DState,
    (∀ e ∈ emittedEvents s ins, s.lastActionTime + action_cooldown ≤ e.1) ∧
      List.Pairwise (fun a b => a.1 + action_cooldown ≤ b.1) (emittedEvents s ins) := by
  induction ins with
  | nil =>
    intro s
    refine ⟨?_, ?_⟩ <;> simp [emittedEvents, cycleLog]
  | cons p rest ih =>
    intro s
    obtain ⟨g, now⟩ := p
    rw [emittedEvents_cons]
    cases hr : (runCycle s g now).2 with
    | none =>
      simp only [Option.elim]
      have hlast := runCycle_last_of_noemit s g now hr
      have hih := ih (runCycle s g now).1
      rw [hlast] at hih
      exact hih
    | some a =>
      simp only [Option.elim]
      obtain ⟨hle, hset⟩ := runCycle_last_of_emit s g now a hr
      obtain ⟨ihb, ihp⟩ := ih (runCycle s g now).1
      rw [hset] at ihb
      have hcpos : (0 : ℚ) ≤ action_cooldown := by norm_num [action_cooldown]
      constructor
      · intro e he
        rcases List.mem_cons.mp he with rfl | hmem
        · exact hle
        · have := ihb e hmem
          linarith
      · refine List.Pairwise.cons ?_ ihp
        intro e hmem
        simpa using ihb e hmem

/-- In every logged cycle entered with a positive suppression counter,
no action is emitted. -/
theorem cycleLog_suppressed (ins : List (GestureType × ℚ)) : ∀ s : DState,
    ∀ e ∈ cycleLog s ins, 0 < e.1 → e.2.2 = none := by
  induction ins with
  | nil =>
    intro s e he
    simp [cycleLog] at he
  | cons p rest ih =>
    intro s e he hpos
    obtain ⟨g, now⟩ := p
    rw [show cycleLog s ((g, now) :: rest) =
          (s.gestureCooldown, now, (runCycle s g now).2) ::
            cycleLog (runCycle s g now).1 rest from rfl] at he
    rcases List.mem_cons.mp he with rfl | hmem
    · exact runCycle_noemit_of_pos s g now hpos
    · exact ih (runCycle s g now).1 e hmem hpos

/-- The suppression counter never exceeds 20 from any state where it
does not. -/
theorem runLoop_cooldown_le (ins : List (GestureType × ℚ)) : ∀ s : DState,
    s.gestureCooldown ≤ 20 → (runLoop s ins).gestureCooldown ≤ 20 := by
  induction ins with
  | nil =>
    intro s hs
    exact hs
  | cons p rest ih =>
    intro s hs
    obtain ⟨g, now⟩ := p
    refine ih (runCycle s g now).1 ?_
    by_cases hc : g ≠ GestureType.NONE ∧ s.gestureCooldown ≤ 0
    · rw [runCycle, if_pos hc]
    · rw [runCycle, if_neg hc]
      simp
      omega

/-- Claim C1 (corrected).  The claim as written fails on the code in two
ways, so the amended statement proved here is: the dispatcher emits an
action (per `gestureAction`) and sets `last_action_time := now` exactly
when the outcome is not `NONE`, the suppression counter is `≤ 0`, and
`now - last_action_time` is at least (not strictly greater than) the
cooldown; the suppression counter is reset to 20 in every cycle where
the outcome is not `NONE` and the counter is `≤ 0`, even when the time
cooldown blocks the emission (the timestamp is then unchanged); in all
remaining cycles nothing is emitted, the counter is decremented, and
the timestamp is unchanged.  (`FIST` is excluded: the pipeline never
produces it.) -/
theorem dispatcher_gate_characterization (s : DState) (g : GestureType) (now : ℚ)
    (hg : g ≠ GestureType.FIST) :
    (g ≠ GestureType.NONE ∧ s.gestureCooldown ≤ 0 ∧
        action_cooldown ≤ now - s.lastActionTime →
      runCycle s g now =
        ({ lastActionTime := now, gestureCooldown := 20 }, gestureAction g)) ∧
    (g ≠ GestureType.NONE ∧ s.gestureCooldown ≤ 0 ∧
        now - s.lastActionTime < action_cooldown →
      runCycle s g now =
        ({ lastActionTime := s.lastActionTime, gestureCooldown := 20 }, none)) ∧
    (¬ (g ≠ GestureType.NONE ∧ s.gestureCooldown ≤ 0) →
      runCycle s g now =
        ({ lastActionTime := s.lastActionTime,
           gestureCooldown := s.gestureCooldown - 1 }, none)) := by
  refine ⟨?_, ?_, ?_⟩
  · rintro ⟨hne, hcd, ht⟩
    have ht2 : ¬ (now - s.lastActionTime < action_cooldown) := not_lt.mpr ht
    cases g <;> simp_all [runCycle, perform_action, gestureAction, if_neg ht2]
  · rintro ⟨hne, hcd, ht⟩
    cases g <;> simp_all [runCycle, perform_action, if_pos ht]
  · intro hc
    simp [runCycle, hc]

/-- Witness for C1: from the initial state, a `SWIPE_UP` outcome at time
2 is emitted as `NextItem`, with both debounce states reset. -/
theorem dispatcher_gate_characterization_witness :
    runCycle initState GestureType.SWIPE_UP 2 =
      ({ lastActionTime := 2, gestureCooldown := 20 }, some ActionId.NextItem) :=
  (dispatcher_gate_characterization initState GestureType.SWIPE_UP 2 (by decide)).1
    ⟨by decide, by decide, by norm_num [initState, action_cooldown]⟩

/-- Counterexample to C1 as stated.  First input: outcome `SWIPE_UP`,
counter 0, `now - last = 1 < 1.5`: the claim predicts the counter is
merely decremented (to `-1`), but the code resets it to 20.  Second
input: `now - last = 1.5` exactly, which does not strictly exceed the
cooldown, yet the code emits `NextItem`. -/
theorem dispatcher_gate_counterexample :
    runCycle initState GestureType.SWIPE_UP 1 =
        ({ lastActionTime := 0, gestureCooldown := 20 }, none) ∧
      (20 : ℤ) ≠ 0 - 1 ∧
      runCycle initState GestureType.SWIPE_UP (3/2) =
        ({ lastActionTime := 3/2, gestureCooldown := 20 }, some ActionId.NextItem) := by
  refine ⟨?_, by decide, ?_⟩ <;>
    · norm_num [runCycle, initState, perform_action, action_cooldown]
      decide

/-- Claim C2 (confirmed).  Over any sequence of cycles from the initial
session state, any two emitted actions are separated by at least the
1.5-second cooldown (so no two are closer than it), and no cycle
entered with a positive suppression counter emits an action. -/
theorem dispatcher_never_double_fires (ins : List (GestureType × ℚ)) :
    List.Pairwise (fun a b => a.1 + action_cooldown ≤ b.1)
        (emittedEvents initState ins) ∧
      ∀ e ∈ cycleLog initState ins, 0 < e.1 → e.2.2 = none :=
  ⟨(emittedEvents_sep ins initState).2, cycleLog_suppressed ins initState⟩

/-- Witness for C2: in the run `[SWIPE_UP at t=2, SWIPE_UP at t=4]`, the
second cycle enters with counter 20 and emits nothing. -/
theorem dispatcher_never_double_fires_witness :
    ((20 : ℤ), (4 : ℚ), (none : Option ActionId)).2.2 = none :=
  (dispatcher_never_double_fires
      [(GestureType.SWIPE_UP, 2), (GestureType.SWIPE_UP, 4)]).2
    (20, 4, none)
    (by
      have h1 : runCycle initState GestureType.SWIPE_UP 2 =
          ({ lastActionTime := 2, gestureCooldown := 20 }, some ActionId.NextItem) := by
        norm_num [runCycle, initState, perform_action, action_cooldown]
        decide
      have h2 : (runCycle { lastActionTime := 2, gestureCooldown := 20 }
          GestureType.SWIPE_UP 4).2 = none := by
        simp [runCycle]
      simp [cycleLog, h1, h2])
    (by decide)

/-- Claim C3 (corrected).  The claim that the suppression counter stays
`≥ 0` is false; what does hold is the upper bound: from the initial
state, the counter never exceeds 20 (it is set to at most 20 and
otherwise only decremented, without a lower bound). -/
theorem suppression_counter_upper_bound (ins : List (GestureType × ℚ)) :
    (runLoop initState ins).gestureCooldown ≤ 20 :=
  runLoop_cooldown_le ins initState (by decide)

/-- Counterexample to C3 as stated: after a single cycle with outcome
`NONE`, the counter of the reachable state is negative. -/
theorem suppression_counter_negative :
    (runLoop initState [(GestureType.NONE, 0)]).gestureCooldown < 0 := by
  simp [runLoop, runCycle, initState]

/-- Claim C4 (confirmed).  Whenever the crop around the located hand is
classified Open, the per-frame outcome is `PALM_OPEN`, for every
previous hand position (hence for any vertical displacement): the
motion branch is never reached. -/
theorem palm_priority_over_motion (f : Frame) (prev : Option (ℕ × ℕ)) (cx cy : ℕ)
    (h : is_palm_open (roiAt f cx cy) = true) :
    (detect_gesture f prev (some (cx, cy))).1 = GestureType.PALM_OPEN := by
  have hsz : (roiAt f cx cy).sizeZero = false := by
    cases hb : (roiAt f cx cy).sizeZero
    · rfl
    · rw [is_palm_open, hb] at h
      simp at h
  simp [detect_gesture, hsz, h]

/-- Witness for C4: an open-palm crop with a previous position 200
pixels above still yields `PALM_OPEN`, not a swipe. -/
theorem palm_priority_over_motion_witness :
    (detect_gesture palmFrame (some (200, 400)) (some (200, 200))).1 =
      GestureType.PALM_OPEN :=
  palm_priority_over_motion palmFrame (some (200, 400)) 200 200
    (by norm_num [is_palm_open, palmFrame, roiAt, Roi.sizeZero, cropRows, cropCols,
      firstMax, npPi])

/-- Claim C5 (confirmed).  With no previous hand position and a crop not
classified Open, the per-frame outcome is `NONE`: no swipe can be
produced from a single sample. -/
theorem no_previous_position_no_swipe (f : Frame) (cx cy : ℕ)
    (h : is_palm_open (roiAt f cx cy) = false) :
    (detect_gesture f none (some (cx, cy))).1 = GestureType.NONE := by
  by_cases hsz : (roiAt f cx cy).sizeZero = true
  · simp [detect_gesture, hsz]
  · simp at hsz
    simp [detect_gesture, hsz, h]

/-- Witness for C5: a closed-hand crop with no previous position yields
`NONE`. -/
theorem no_previous_position_no_swipe_witness :
    (detect_gesture closedFrame none (some (100, 100))).1 = GestureType.NONE :=
  no_previous_position_no_swipe closedFrame 100 100
    (by simp [is_palm_open, closedFrame, roiAt, Roi.sizeZero, cropRows, cropCols,
      firstMax])

/-- Claim C6 (confirmed).  The hand locator returns absent when there
are no contours, and when the largest contour's area is below the
5000-pixel minimum; whenever it is absent, the full pipeline's outcome
for the cycle is `NONE`; and when a qualifying contour exists, the
returned position is the integer-halved center of its axis-aligned
bounding box. -/
theorem hand_locator_characterization (cs : List Contour) (f : Frame)
    (prev : Option (ℕ × ℕ)) :
    (cs = [] → detect_hand cs = none) ∧
    (∀ c, firstMax Contour.area cs = some c → c.area < min_contour_area →
      detect_hand cs = none) ∧
    (detect_hand cs = none →
      (detect_gesture f prev (detect_hand cs)).1 = GestureType.NONE) ∧
    (∀ c, firstMax Contour.area cs = some c → ¬ c.area < min_contour_area →
      detect_hand cs = some (c.x + c.w / 2, c.y + c.h / 2)) := by
  refine ⟨?_, ?_, ?_, ?_⟩
  · rintro rfl
    rfl
  · intro c hc hlt
    simp [detect_hand, hc, hlt]
  · intro hn
    rw [hn]
    rfl
  · intro c hc hge
    simp [detect_hand, hc, hge]

/-- Witness for C6: a single contour of area 6000 with bounding box
`(10, 20, 30, 40)` yields the position `(10 + 30/2, 20 + 40/2) =
(25, 40)`, and an empty contour list yields no hand and outcome
`NONE`. -/
theorem hand_locator_characterization_witness :
    detect_hand [bigContour] = some (25, 40) ∧
      (detect_gesture closedFrame none (detect_hand [])).1 = GestureType.NONE :=
  ⟨(hand_locator_characterization [bigContour] closedFrame none).2.2.2 bigContour rfl
      (by norm_num [bigContour, min_contour_area]),
    (hand_locator_characterization [] closedFrame none).2.2.1
      ((hand_locator_characterization [] closedFrame none).1 rfl)⟩

/-- Claim C7 (confirmed).  For a nonempty crop: with no contour the
classifier reports Closed; with a largest contour of nonzero perimeter
(the circularity formula presupposes this; the zero-perimeter guard is
claim C10) it reports Open exactly when circularity
`4·π·area / perimeter²` is below `0.5` and the area exceeds `500`. -/
theorem shape_classifier_characterization (r : Roi) (hr : r.sizeZero = false) :
    (r.contours = [] → is_palm_open r = false) ∧
    (∀ c, firstMax RoiContour.area r.contours = some c → c.perimeter ≠ 0 →
      (is_palm_open r = true ↔
        4 * npPi * c.area / (c.perimeter * c.perimeter) < 1/2 ∧ c.area > 500)) := by
  constructor
  · intro hc
    simp [is_palm_open, hr, hc, firstMax]
  · intro c hc hp
    simp [is_palm_open, hr, hc, hp]

/-- Witness for C7: a crop whose only contour has area 600 and
perimeter 130 (circularity ≈ 0.446 < 0.5, area > 500) is classified
Open. -/
theorem shape_classifier_characterization_witness : is_palm_open palmRoi = true :=
  ((shape_classifier_characterization palmRoi (by decide)).2
      { area := 600, perimeter := 130 } rfl (by norm_num)).mpr
    ⟨by norm_num [npPi], by norm_num⟩

/-- Claim C8 (confirmed).  Scenario: previous centroid `(100, 300)`,
current centroid `(100, 230)`, closed shape: the displacement
`300 - 230 = 70` exceeds the 50-pixel threshold and the outcome is
`SWIPE_UP`; and whenever both debounce conditions hold, the dispatcher
emits `NextItem` for `SWIPE_UP`, `PreviousItem` for `SWIPE_DOWN`, and
`TogglePlayback` for `PALM_OPEN`. -/
theorem swipe_up_scenario :
    (detect_gesture closedFrame (some (100, 300)) (some (100, 230))).1 =
        GestureType.SWIPE_UP ∧
      ((300 : ℤ) - 230 = 70 ∧ (50 : ℤ) < 70) ∧
      (∀ s : DState, ∀ now : ℚ, s.gestureCooldown ≤ 0 →
        action_cooldown ≤ now - s.lastActionTime →
        (runCycle s GestureType.SWIPE_UP now).2 = some ActionId.NextItem ∧
          (runCycle s GestureType.SWIPE_DOWN now).2 = some ActionId.PreviousItem ∧
          (runCycle s GestureType.PALM_OPEN now).2 = some ActionId.TogglePlayback) := by
  refine ⟨?_, ⟨by norm_num, by norm_num⟩, ?_⟩
  · simp [detect_gesture, closedFrame, roiAt, Roi.sizeZero, cropRows, cropCols,
      is_palm_open, firstMax]
  · intro s now hcd ht
    have ht2 : ¬ (now - s.lastActionTime < action_cooldown) := not_lt.mpr ht
    refine ⟨?_, ?_, ?_⟩ <;> simp [runCycle, perform_action, hcd, if_neg ht2]

/-- Witness for C8: from the initial state at time 2 both debounce
conditions hold and `SWIPE_UP` is emitted as `NextItem`. -/
theorem swipe_up_scenario_witness :
    (runCycle initState GestureType.SWIPE_UP 2).2 = some ActionId.NextItem :=
  (swipe_up_scenario.2.2 initState 2 (by decide)
    (by norm_num [initState, action_cooldown])).1

/-- Claim C9 (corrected).  The claim as written fails on the code: with
an empty crop window `detect_gesture` returns `NONE` immediately (line
68-69), without consulting the shape or motion classifiers, so a large
displacement does not produce a swipe.  The amended statement proved
here: an empty crop yields outcome `NONE` regardless of the previous
position; the motion classifier is consulted only when the crop is
nonempty and not classified Open, in which case a displacement above
the threshold does yield `SWIPE_UP`. -/
theorem empty_crop_behavior (f : Frame) (prev : Option (ℕ × ℕ)) (cx cy px py : ℕ) :
    ((roiAt f cx cy).sizeZero = true →
      (detect_gesture f prev (some (cx, cy))).1 = GestureType.NONE) ∧
    ((roiAt f cx cy).sizeZero = false → is_palm_open (roiAt f cx cy) = false →
      (py : ℤ) - (cy : ℤ) > 50 →
      (detect_gesture f (some (px, py)) (some (cx, cy))).1 = GestureType.SWIPE_UP) := by
  constructor
  · intro h
    simp [detect_gesture, h]
  · intro hsz hp hd
    simp [detect_gesture, hsz, hp, hd]

/-- Witness for C9 (amended): a nonempty closed crop with displacement
70 yields `SWIPE_UP`. -/
theorem empty_crop_behavior_witness :
    (detect_gesture closedFrame (some (100, 300)) (some (100, 230))).1 =
      GestureType.SWIPE_UP :=
  (empty_crop_behavior closedFrame none 100 230 100 300).2 (by decide)
    (by simp [is_palm_open, closedFrame, roiAt, Roi.sizeZero, cropRows, cropCols,
      firstMax])
    (by decide)

/-- Counterexample to C9 as stated: at position `(700, 300)` in a
640-pixel-wide frame the clamped crop is empty; the previous position
`(700, 400)` gives displacement `100 > 50`, yet the outcome is `NONE`,
not `SWIPE_UP`. -/
theorem empty_crop_counterexample :
    cropCols closedFrame.width 700 = 0 ∧
      (400 : ℤ) - 300 > 50 ∧
      (detect_gesture closedFrame (some (700, 400)) (some (700, 300))).1 =
        GestureType.NONE ∧
      GestureType.NONE ≠ GestureType.SWIPE_UP := by
  refine ⟨by decide, by decide, ?_, by decide⟩
  simp [detect_gesture, closedFrame, roiAt, Roi.sizeZero, cropRows, cropCols]

/-- Claim C10 (confirmed).  The circularity division is guarded: when
the largest contour of the crop has zero perimeter, the classifier
returns Closed without evaluating the circularity formula. -/
theorem zero_perimeter_guard (r : Roi) (c : RoiContour)
    (hc : firstMax RoiContour.area r.contours = some c) (hp : c.perimeter = 0) :
    is_palm_open r = false := by
  by_cases hsz : r.sizeZero = true
  · simp [is_palm_open, hsz]
  · simp at hsz
    simp [is_palm_open, hsz, hc, hp]

/-- Witness for C10: a crop whose only contour has perimeter 0 (and
area 600) is classified Closed. -/
theorem zero_perimeter_guard_witness : is_palm_open zeroPerimRoi = false :=
  zero_perimeter_guard zeroPerimRoi { area := 600, perimeter := 0 } rfl rfl
